import Mathlib

/-!
# Verification of the disasters-api service layer

Shallow embedding of the disasters CRUD backend (Express + PostgreSQL/PostGIS
reference implementation) and proofs about its validation, pagination,
persistence, geospatial query and serialization behaviour.

JavaScript numbers are modelled as exact rationals plus the distinguished
non-finite values `NaN`, `Infinity` and `-Infinity`; JSON-ish runtime values
are modelled by the inductive `JSVal`.
-/

namespace DisastersApi

/-- A JavaScript number: either a finite value (modelled exactly as a
rational) or one of the non-finite specials. -/
inductive JSNum where
  | nan
  | inf
  | negInf
  | num (q : ℚ)
deriving DecidableEq

/-- Embeds `Number.isFinite`. -/
def JSNum.isFinite : JSNum → Bool
  | .num _ => true
  | _ => false

/-- A JavaScript runtime value as it can appear in a parsed request body or
in a database driver payload. -/
inductive JSVal where
  | null
  | undef
  | bool (b : Bool)
  | num (q : ℚ)
  | nan
  | inf
  | negInf
  | str (s : String)
  | arr (elems : List JSVal)
  | obj (fields : List (String × JSVal))

/-- First-match lookup of a key in an object's field list (JS objects have
distinct keys, so first-match is the JS semantics). -/
def jsLookup (k : String) : List (String × JSVal) → Option JSVal
  | [] => none
  | (k2, v) :: rest => if k2 = k then some v else jsLookup k rest

/-! ## Validation layer: `disasterSchema` location checking
(src/validation/disaster.ts)

The Joi sub-schema for `location.coordinates` is

  Joi.array().length(2).items(
    Joi.number().min(-180).max(180), // lng
    Joi.number().min(-90).max(90),   // lat
  )

`Joi.array().items(A, B)` accepts an element when it matches at least ONE of
the listed item schemas (positional checking would be `.ordered`).  A Joi
`number()` rejects `NaN` (number.base) and ±Infinity (number.infinity).
-/

/-- Embeds `Joi.number().min(lo).max(hi)` applied to one runtime value. -/
def joiNumberBetween (lo hi : ℚ) : JSVal → Bool
  | .num q => decide (lo ≤ q) && decide (q ≤ hi)
  | _ => false

/-- One element of `location.coordinates`: valid when it matches either of
the two item schemas of `.items(...)`. -/
def coordinateItemOk (v : JSVal) : Bool :=
  joiNumberBetween (-180) 180 v || joiNumberBetween (-90) 90 v

/-- The `coordinates` sub-schema: an array of length 2 whose elements each
satisfy `coordinateItemOk`. -/
def coordinatesOk : JSVal → Bool
  | .arr xs => decide (xs.length = 2) && xs.all coordinateItemOk
  | _ => false

/-- Keys allowed in the `location` object of `disasterSchema`. -/
def locationAllowedKeys : List String := ["type", "coordinates"]

/-- The `location` sub-schema of `disasterSchema`: an object whose `type` is
the string `"Point"` (required), whose `coordinates` satisfy the array
schema (required), with no unknown keys. -/
def locationOk : JSVal → Bool
  | .obj fs =>
      (fs.all (fun kv => kv.1 ∈ locationAllowedKeys)) &&
      (match jsLookup "type" fs with
        | some (.str s) => decide (s = "Point")
        | _ => false) &&
      (match jsLookup "coordinates" fs with
        | some c => coordinatesOk c
        | none => false)
  | _ => false

/-- Spec-side definition ("location.coordinates always has exactly 2 numeric
entries within the stated bounds"): longitude ∈ [-180,180] at position 0,
latitude ∈ [-90,90] at position 1, both finite numbers. -/
def specCoordinatesWithinBounds : JSVal → Bool
  | .arr [.num lng, .num lat] =>
      decide ((-180 : ℚ) ≤ lng) && decide (lng ≤ 180) &&
      decide ((-90 : ℚ) ≤ lat) && decide (lat ≤ 90)
  | _ => false

/-- A concrete location payload with latitude 95 (out of the spec's
[-90,90] bound). -/
def locationLat95 : JSVal :=
  .obj [("type", .str "Point"), ("coordinates", .arr [.num 10, .num 95])]

/-! ## Row-read location fallback (src/services/disaster.service.ts,
`mapRowToDisaster`, lines 315-321)

    typeof row.location === 'object' && row.location !== null &&
    'type' in row.location && 'coordinates' in row.location
      ? row.location
      : { type: 'Point', coordinates: [0, 0] }
-/

/-- Embeds `typeof v === 'object'` — true for objects, arrays and `null`. -/
def jsTypeofIsObject : JSVal → Bool
  | .obj _ => true
  | .arr _ => true
  | .null => true
  | _ => false

/-- Embeds `v === null`. -/
def jsIsNull : JSVal → Bool
  | .null => true
  | _ => false

/-- Embeds `k in v` for the keys this code queries: own keys of an object, or an
index key of an array (the queried keys `"type"`/`"coordinates"` are never
inherited prototype properties of either). -/
def jsHasKey (k : String) : JSVal → Bool
  | .obj fs => (jsLookup k fs).isSome
  | .arr xs =>
      match k.toNat? with
      | some i => decide (i < xs.length)
      | none => false
  | _ => false

/-- The sentinel substituted by `mapRowToDisaster` for unusable location
payloads. -/
def sentinelPoint : JSVal :=
  .obj [("type", .str "Point"), ("coordinates", .arr [.num 0, .num 0])]

/-- The guard of `mapRowToDisaster`'s location conditional. -/
def hasLocationKeys (loc : JSVal) : Bool :=
  jsTypeofIsObject loc && !jsIsNull loc && jsHasKey "type" loc &&
    jsHasKey "coordinates" loc

/-- The location branch of `mapRowToDisaster`. -/
def mapRowToDisasterLocation (loc : JSVal) : JSVal :=
  if hasLocationKeys loc then loc else sentinelPoint

/-- Spec-side definition of "the expected point shape": `type` is the string
`"Point"` and `coordinates` is an array of exactly two numbers. -/
def specIsPointShape : JSVal → Bool
  | .obj fs =>
      match jsLookup "type" fs, jsLookup "coordinates" fs with
      | some (.str t), some (.arr [.num _, .num _]) => decide (t = "Point")
      | _, _ => false
  | _ => false

/-- A GeoJSON LineString-shaped payload: not the expected point shape, yet
it carries both queried keys. -/
def lineStringPayload : JSVal :=
  .obj [("type", .str "LineString"),
        ("coordinates", .arr [.arr [.num 0, .num 0], .arr [.num 1, .num 1]])]

/-! ## Pagination sanitization

Three cooperating pieces (the claims cite all three):
- `getAllDisasters` of the `pg`-pool service (src/services/disaster.service.ts
  lines 41-43): clamps skip, defaults limit, **no cap at 100**;
- the REST route `GET /` (src/routes/disasters.ts lines 91-99):
  `Math.min(Number(limit) || 20, 100)`;
- the GraphQL `disasters` resolver (src/graphql/resolvers.ts lines 52-66):
  passes `limit` through unchanged;
- the Prisma service variant (disaster.service.ts lines 373-374) caps in the
  service itself: `Math.min(limit, 100)`.
-/

/-- Embeds `x || d` on a JS number: NaN, 0 and -0 are falsy; infinities are truthy. -/
def jsNumOr (x : JSNum) (d : ℚ) : JSNum :=
  match x with
  | .num q => if q = 0 then .num d else .num q
  | .nan => .num d
  | .inf => .inf
  | .negInf => .negInf

/-- Embeds `Math.min(x, c)` for a finite second argument. -/
def jsNumMin (x : JSNum) (c : ℚ) : JSNum :=
  match x with
  | .num q => .num (min q c)
  | .nan => .nan
  | .inf => .num c
  | .negInf => .negInf

/-- Embeds `x - c` for a finite `c`. -/
def jsNumSub (x : JSNum) (c : ℚ) : JSNum :=
  match x with
  | .num q => .num (q - c)
  | .nan => .nan
  | .inf => .inf
  | .negInf => .negInf

/-- JS multiplication. -/
def jsNumMul : JSNum → JSNum → JSNum
  | .num a, .num b => .num (a * b)
  | .nan, _ => .nan
  | _, .nan => .nan
  | .inf, .num b => if b = 0 then .nan else if 0 < b then .inf else .negInf
  | .num a, .inf => if a = 0 then .nan else if 0 < a then .inf else .negInf
  | .negInf, .num b => if b = 0 then .nan else if 0 < b then .negInf else .inf
  | .num a, .negInf => if a = 0 then .nan else if 0 < a then .negInf else .inf
  | .inf, .inf => .inf
  | .inf, .negInf => .negInf
  | .negInf, .inf => .negInf
  | .negInf, .negInf => .inf

/-- Embeds `Number.isFinite(skipRaw) && skipRaw >= 0 ? skipRaw : 0`. -/
def sanitizeSkip (x : JSNum) : ℚ :=
  match x with
  | .num q => if 0 ≤ q then q else 0
  | _ => 0

/-- Embeds `Number.isFinite(limitRaw) && limitRaw > 0 ? limitRaw : 20` — the
pg-pool service applies no cap at 100. -/
def sanitizeLimitPg (x : JSNum) : ℚ :=
  match x with
  | .num q => if 0 < q then q else 20
  | _ => 20

/-- Effective (offset, limit) reaching the SQL query in the pg-pool
`getAllDisasters`; `none` models an absent option (destructuring defaults
0 and 20). -/
def getAllDisastersEffective (skipArg limitArg : Option JSNum) : ℚ × ℚ :=
  (sanitizeSkip (skipArg.getD (.num 0)), sanitizeLimitPg (limitArg.getD (.num 20)))

/-- Embeds `Number.isFinite(limit) && limit > 0 ? Math.min(limit, 100) : 20` — the
Prisma service variant caps in the service itself (`skip > 0` there). -/
def getAllDisastersPrismaEffective (skipArg limitArg : Option JSNum) : ℚ × ℚ :=
  (match skipArg.getD (.num 0) with
    | .num q => if 0 < q then q else 0
    | _ => 0,
   match limitArg.getD (.num 20) with
    | .num q => if 0 < q then min q 100 else 20
    | _ => 20)

/-- Effective (offset, limit) for `GET /disasters`: the route computes
`pageNum = Number(page) || 1`, `limitNum = Math.min(Number(limit) || 20, 100)`
and calls the service with `skip = (pageNum - 1) * limitNum`.  Arguments are
the results of `Number(...)` on the query strings. -/
def routerGetDisastersEffective (page limit : JSNum) : ℚ × ℚ :=
  let pageNum := jsNumOr page 1
  let limitNum := jsNumMin (jsNumOr limit 20) 100
  getAllDisastersEffective (some (jsNumMul (jsNumSub pageNum 1) limitNum))
    (some limitNum)

/-- Effective (offset, limit) for the GraphQL `disasters` resolver: defaults
`page = 1`, `limit = 20`, computes `skip = (page - 1) * limit` and passes
`limit` to the service unchanged (GraphQL `Int` arguments are finite). -/
def resolversQueryDisastersEffective (page limit : Option ℚ) : ℚ × ℚ :=
  let p := page.getD 1
  let l := limit.getD 20
  getAllDisastersEffective (some (.num ((p - 1) * l))) (some (.num l))

/-! ## Date normalization (src/services/disaster.service.ts)

`new Date(ms).toISOString().slice(0, 10)` is modelled by `toISODate10`:
the millisecond time value is converted to a proleptic-Gregorian civil date
(the algorithm of ECMAScript's time-value-to-date conversion) and rendered
as `YYYY-MM-DD`.  Years outside 0..9999 use `toISOString`'s expanded
six-digit signed format.
-/

/-- The decimal digit character for `n < 10` (other inputs cannot arise from
the `% 10` call sites). -/
def digitChar : Nat → Char
  | 0 => '0'
  | 1 => '1'
  | 2 => '2'
  | 3 => '3'
  | 4 => '4'
  | 5 => '5'
  | 6 => '6'
  | 7 => '7'
  | 8 => '8'
  | 9 => '9'
  | _ => '?'

/-- Two-digit zero-padded rendering (months, days, hours, minutes, seconds
are always at most two digits). -/
def pad2 (n : Nat) : String :=
  String.mk [digitChar (n / 10 % 10), digitChar (n % 10)]

/-- Three-digit zero-padded rendering (milliseconds). -/
def pad3 (n : Nat) : String :=
  String.mk [digitChar (n / 100 % 10), digitChar (n / 10 % 10), digitChar (n % 10)]

/-- Four-digit zero-padded rendering (years 0..9999). -/
def pad4 (n : Nat) : String :=
  String.mk [digitChar (n / 1000 % 10), digitChar (n / 100 % 10),
    digitChar (n / 10 % 10), digitChar (n % 10)]

/-- Six-digit zero-padded rendering (expanded years). -/
def pad6 (n : Nat) : String :=
  String.mk [digitChar (n / 100000 % 10), digitChar (n / 10000 % 10),
    digitChar (n / 1000 % 10), digitChar (n / 100 % 10),
    digitChar (n / 10 % 10), digitChar (n % 10)]

/-- Civil (year, month, day) of a day count from the Unix epoch, proleptic
Gregorian — the standard era-based days-to-civil algorithm matching
ECMAScript's time-value-to-date conversion. -/
def civilFromDays (z0 : Int) : Int × Nat × Nat :=
  let z := z0 + 719468
  let era : Int := z.fdiv 146097
  let doe : Nat := (z - era * 146097).toNat
  let yoe : Nat := (doe - doe / 1460 + doe / 36524 - doe / 146096) / 365
  let doy : Nat := doe - (365 * yoe + yoe / 4 - yoe / 100)
  let mp : Nat := (5 * doy + 2) / 153
  let d : Nat := doy - (153 * mp + 2) / 5 + 1
  let m : Nat := if mp < 10 then mp + 3 else mp - 9
  ((yoe : Int) + era * 400 + (if m ≤ 2 then 1 else 0), m, d)

def msPerDay : Int := 86400000

/-- The year rendering of `toISOString`: four digits for 0..9999, expanded
signed six-digit format otherwise. -/
def isoYearStr (y : Int) : String :=
  if 0 ≤ y ∧ y ≤ 9999 then pad4 y.toNat
  else (if y < 0 then "-" else "+") ++ pad6 y.natAbs

/-- Embeds `new Date(ms).toISOString().slice(0, 10)`. -/
def toISODate10 (ms : Int) : String :=
  let c := civilFromDays (ms.fdiv msPerDay)
  isoYearStr c.1 ++ "-" ++ pad2 c.2.1 ++ "-" ++ pad2 c.2.2

/-- The time-of-day part of `toISOString` (floor semantics: negative time
values wrap to a positive time of day). -/
def toISOTimePart (ms : Int) : String :=
  let rem : Nat := (ms.emod msPerDay).toNat
  let s := rem / 1000
  pad2 (s / 3600) ++ ":" ++ pad2 (s / 60 % 60) ++ ":" ++ pad2 (s % 60) ++
    "." ++ pad3 (rem % 1000)

/-- Embeds `new Date(ms).toISOString()`. -/
def toISOStringFull (ms : Int) : String :=
  toISODate10 ms ++ "T" ++ toISOTimePart ms ++ "Z"

/-- Embeds `/^\d+$/.test(s)`. -/
def strAllDigits (s : String) : Bool :=
  !s.isEmpty && s.data.all (fun c => c.isDigit)

/-- Embeds `/^\d{4}-\d{2}-\d{2}/.test(s)` — anchored at the start only. -/
def startsWithIsoDate (s : String) : Bool :=
  match s.data with
  | a :: b :: c :: d :: h1 :: e :: f :: h2 :: g :: h :: _ =>
      a.isDigit && b.isDigit && c.isDigit && d.isDigit && (h1 == '-') &&
        e.isDigit && f.isDigit && (h2 == '-') && g.isDigit && h.isDigit
  | _ => false

/-- Embeds `Number(s)` for an all-digit string. -/
def strToNatDigits (s : String) : Nat :=
  s.data.foldl (fun acc c => acc * 10 + (c.toNat - 48)) 0

/-- Spec-side definition: `s` is exactly a `YYYY-MM-DD` string. -/
def isDateOnlyString (s : String) : Bool :=
  match s.data with
  | [a, b, c, d, h1, e, f, h2, g, h] =>
      a.isDigit && b.isDigit && c.isDigit && d.isDigit && (h1 == '-') &&
        e.isDigit && f.isDigit && (h2 == '-') && g.isDigit && h.isDigit
  | _ => false

/-- Embeds `row.date` as delivered by the database driver: a JS `Date`, a string, a
number, or something else entirely (JS `Date` time values and numeric date
payloads are integral milliseconds). -/
inductive RowDateVal where
  | date (ms : Int)
  | str (s : String)
  | num (ms : Int)
  | other

/-- The date normalization of `mapRowToDisaster` (disaster.service.ts lines
290-311).  `jsParseDate` models `new Date(string)` for strings that are
neither all digits nor `YYYY-MM-DD`-prefixed: `some ms` when the host can
parse the string, `none` for an Invalid Date. -/
def mapRowToDisasterDate (jsParseDate : String → Option Int) :
    RowDateVal → String
  | .date ms => toISODate10 ms
  | .str s =>
      if strAllDigits s then toISODate10 (strToNatDigits s)
      else if startsWithIsoDate s then s
      else
        match jsParseDate s with
        | some ms => toISODate10 ms
        | none => s
  | .num ms => toISODate10 ms
  | .other => ""

/-- A write-path `date` value (`DisasterInput.date : string | number`). -/
inductive WriteDateVal where
  | num (ms : Int)
  | str (s : String)

/-- The date conversion applied by `createDisaster`, `bulkInsertDisasters`
and `updateDisaster` before the SQL statement (lines 16-19): numbers and
all-digit strings become `new Date(Number(v)).toISOString().slice(0,10)`;
all other strings are passed to the database as given. -/
def createDisasterDateValue : WriteDateVal → String
  | .num ms => toISODate10 ms
  | .str s => if strAllDigits s then toISODate10 (strToNatDigits s) else s

/-- Decidable guard: the civil components of `ms` render in the basic
4-digit year format with two-digit month and day (always true for real
dates; stated as an explicit guard rather than proved from the calendar
arithmetic). -/
def isoDateInBasicRange (ms : Int) : Bool :=
  let c := civilFromDays (ms.fdiv msPerDay)
  decide (0 ≤ c.1) && decide (c.1 ≤ 9999) && decide (c.2.1 ≤ 99) &&
    decide (c.2.2 ≤ 99)

/-! ## Persistence service (pg-pool variant, src/services/disaster.service.ts)

The database state is the committed `disasters` table plus the clock used
for `NOW()`.  `pool.query(...)` statements run in autocommit mode against
the shared committed state.  A transaction opened with `client.query('BEGIN')`
groups only the statements issued **through that same client**: `COMMIT`
publishes them, `ROLLBACK` discards them; statements issued through the pool
while the transaction is open commit immediately and are unaffected.
-/

/-- A geographic point as stored in the `geography(Point,4326)` column. -/
structure GeoPoint where
  lng : ℚ
  lat : ℚ
deriving DecidableEq

/-- Embeds `ST_GeomFromGeoJSON($n)::geography` into the `geography(Point,4326)`
column: succeeds exactly on a well-formed GeoJSON Point object (the column's
DDL constrains the geometry type), raising a store error inside the
statement otherwise. -/
def parseGeoJsonPoint : JSVal → Option GeoPoint
  | .obj fs =>
      match jsLookup "type" fs, jsLookup "coordinates" fs with
      | some (.str t), some (.arr [.num lng, .num lat]) =>
          if t = "Point" then some ⟨lng, lat⟩ else none
      | _, _ => none
  | _ => none

/-- A committed row of the `disasters` table, as selected by the service
(`ST_AsGeoJSON(location)` already folded back to the point). -/
structure DisasterRow where
  id : Nat
  type : String
  location : GeoPoint
  date : String
  description : Option String
  status : String
  createdAt : Nat
  updatedAt : Nat
deriving DecidableEq

/-- Embeds `Partial<DisasterInput>` after JSON parsing: absent fields are `none`
(the service skips `undefined` entries of `Object.entries`). -/
structure UpdateData where
  type : Option String := none
  location : Option JSVal := none
  date : Option WriteDateVal := none
  description : Option String := none
  status : Option String := none

/-- The empty update (no effective fields after discarding `undefined`). -/
def emptyUpdate : UpdateData := {}

/-- An update carrying exactly `{status: "resolved"}`. -/
def statusResolvedUpdate : UpdateData := { status := some "resolved" }

/-- Whether `fields.length === 0` is false, i.e. some entry survived the
`undefined` filter. -/
def UpdateData.hasEffectiveFields (d : UpdateData) : Bool :=
  d.type.isSome || d.location.isSome || d.date.isSome ||
    d.description.isSome || d.status.isSome

/-- Unexpected backend failure (constraint violation, malformed geometry,
connection failure). -/
inductive StoreErr where
  | storeError
deriving DecidableEq

/-- The shared committed database state. -/
structure Db where
  rows : List DisasterRow
  now : Nat
deriving DecidableEq

/-- Embeds `SELECT ... WHERE id = $1` / the row-existence view of the table. -/
def findRowById (rows : List DisasterRow) (id : Nat) : Option DisasterRow :=
  rows.find? (fun r => r.id = id)

/-- The merge applied by the dynamically built `SET` clause: supplied fields
overwrite, `updated_at = NOW()` is always appended when at least one field
is applied. -/
def applyUpdateData (r : DisasterRow) (d : UpdateData) (p : Option GeoPoint)
    (now : Nat) : DisasterRow :=
  { r with
    type := d.type.getD r.type,
    location := p.getD r.location,
    date := (d.date.map createDisasterDateValue).getD r.date,
    description := match d.description with
      | some s => some s
      | none => r.description,
    status := d.status.getD r.status,
    updatedAt := now }

/-- Embeds `updateDisaster(id, data)` (lines 128-175): with no effective fields it
re-reads and returns the current record without touching the table;
otherwise it runs one `UPDATE ... RETURNING` through the pool (autocommit).
A malformed `location` raises only when a row matches (the `SET` expressions
are evaluated per matched row). -/
def updateDisaster (db : Db) (id : Nat) (d : UpdateData) :
    Except StoreErr (Db × Option DisasterRow) :=
  if ¬ d.hasEffectiveFields then .ok (db, findRowById db.rows id)
  else
    match findRowById db.rows id with
    | none => .ok (db, none)
    | some r =>
      match d.location with
      | some j =>
        match parseGeoJsonPoint j with
        | none => .error .storeError
        | some p =>
          let r2 := applyUpdateData r d (some p) db.now
          .ok ({ db with
            rows := db.rows.map (fun x => if x.id = id then r2 else x) },
            some r2)
      | none =>
        let r2 := applyUpdateData r d none db.now
        .ok ({ db with
          rows := db.rows.map (fun x => if x.id = id then r2 else x) },
          some r2)

/-- One bulk-update item: `{ id } & Partial<DisasterInput>`. -/
structure BulkUpdateItem where
  id : Nat
  data : UpdateData

/-- The per-item loop of `bulkUpdateDisasters`. -/
def bulkUpdateLoop (items : List BulkUpdateItem) (db : Db) (modified : Nat) :
    Except StoreErr Nat × Db :=
  match items with
  | [] => (.ok modified, db)
  | u :: rest =>
    match updateDisaster db u.id u.data with
    | .ok (db2, r) =>
        bulkUpdateLoop rest db2 (modified + if r.isSome then 1 else 0)
    | .error e => (.error e, db)

/-- Embeds `bulkUpdateDisasters(updates)` (lines 262-286).  The source checks out a
dedicated `client`, runs `BEGIN` on it, then calls `updateDisaster` for each
item — but `updateDisaster` issues its `UPDATE` through `pool.query`, i.e.
on other connections in autocommit mode, outside the client's transaction.
The client's transaction therefore contains no statements: `COMMIT` after
the loop publishes nothing, and `ROLLBACK` on error discards nothing, so
every per-item update already applied stays committed.  The returned state
is the shared committed state after the statements that ran. -/
def bulkUpdateDisasters (db : Db) (updates : List BulkUpdateItem) :
    Except StoreErr (Nat × Nat) × Db :=
  match bulkUpdateLoop updates db 0 with
  | (.ok modified, db2) => (.ok (updates.length, modified), db2)
  | (.error e, db2) => (.error e, db2)

/-! ## Proximity search (`findDisastersNear`, lines 186-221)

    SELECT ..., ST_Distance(location, center) / 1000 as distance_km
    FROM disasters
    WHERE ST_DWithin(location, center, $3 * 1000)
    ORDER BY distance_km

`dist` abstracts PostGIS's geographic (geodesic) `ST_Distance` in meters;
`ST_DWithin(g1, g2, d)` holds iff the geographic distance is at most `d`.
`ORDER BY` is modelled by insertion sort on the selected `distance_km`.
-/

/-- The result list of `findDisastersNear({lat, lng, distance})`. -/
def findDisastersNear (dist : GeoPoint → GeoPoint → ℚ) (rows : List DisasterRow)
    (lng lat distanceKm : ℚ) : List DisasterRow :=
  let center : GeoPoint := ⟨lng, lat⟩
  letI : DecidableRel
      (fun a b : DisasterRow =>
        dist a.location center / 1000 ≤ dist b.location center / 1000) :=
    fun _ _ => inferInstanceAs (Decidable (_ ≤ _))
  (rows.filter (fun r => dist r.location center ≤ distanceKm * 1000)).insertionSort
    (fun a b => dist a.location center / 1000 ≤ dist b.location center / 1000)

/-! ## Create validation (src/validation/disaster.ts `disasterSchema`,
src/routes/disasters.ts `POST /`)

Joi presence semantics: a key marked `.required()` that is absent fails with
`"<key>" is required` — `.default(...)` is never applied to a required key.
Per-field validators below emit one representative message per failing
field (Joi with `abortEarly:false` can emit several; the claims only need
which fields have errors); messages go through `mapJoiErrorMessage`, which
rewrites the `type`/`location`/`date` messages but has no rule for the
`status` one.
-/

/-- The status enum of `disasterSchema`. -/
def statusEnum : List String := ["active", "contained", "resolved"]

/-- Embeds `type: Joi.string().required()` (a bare Joi string also rejects the
empty string). -/
def typeFieldErrors (v : Option JSVal) : List String :=
  match v with
  | none => ["type (string) is required"]
  | some (.str s) => if s = "" then ["\"type\" is not allowed to be empty"] else []
  | some _ => ["\"type\" must be a string"]

/-- Embeds `location: ...required()` — one representative message when the
sub-schema fails. -/
def locationFieldErrors (v : Option JSVal) : List String :=
  match v with
  | none => ["location (object) is required"]
  | some l => if locationOk l then [] else ["\"location\" is invalid"]

/-- Embeds `date: Joi.string().isoDate().required()`; `iso` abstracts Joi's ISO
8601 format test. -/
def dateFieldErrors (iso : String → Bool) (v : Option JSVal) : List String :=
  match v with
  | none => ["date (ISO string) is required"]
  | some (.str s) => if iso s then [] else ["date (ISO string) is required"]
  | some _ => ["\"date\" must be a string"]

/-- Embeds `description: Joi.string().allow('').optional()`. -/
def descriptionFieldErrors (v : Option JSVal) : List String :=
  match v with
  | none => []
  | some (.str _) => []
  | some _ => ["\"description\" must be a string"]

/-- Embeds `status: Joi.string().valid(...).default('active').required()`: an
absent status fails with the required-key error — the default is inert. -/
def statusFieldErrors (v : Option JSVal) : List String :=
  match v with
  | none => ["\"status\" is required"]
  | some (.str s) =>
      if s ∈ statusEnum then []
      else ["\"status\" must be one of [active, contained, resolved]"]
  | some _ => ["\"status\" must be one of [active, contained, resolved]"]

/-- A create request body: the five schema fields (absent = `none`) plus
any unknown keys (Joi objects reject unknown keys by default). -/
structure CreateBody where
  type : Option JSVal := none
  location : Option JSVal := none
  date : Option JSVal := none
  description : Option JSVal := none
  status : Option JSVal := none
  unknownKeys : List String := []

/-- All field-level errors of `disasterSchema.validate(body, {abortEarly:
false})`, after `mapJoiErrorMessage`. -/
def disasterSchemaErrors (iso : String → Bool) (b : CreateBody) : List String :=
  typeFieldErrors b.type ++ locationFieldErrors b.location ++
    dateFieldErrors iso b.date ++ descriptionFieldErrors b.description ++
    statusFieldErrors b.status ++
    b.unknownKeys.map (fun k => "\"" ++ k ++ "\" is not allowed")

/-- Embeds `status || 'active'` as stored by `createDisaster` (line 24): the
service-level fallback fires on a falsy status (absent or empty). -/
def createDisasterStoredStatus (status : Option String) : String :=
  match status with
  | some s => if s = "" then "active" else s
  | none => "active"

/-- Outcome of `POST /disasters`: 400 with field details, or a created
record whose stored status is tracked. -/
inductive CreateOutcome where
  | reject400 (details : List String)
  | created (storedStatus : String)
deriving DecidableEq

/-- The `POST /` route: validate, 400 on any error, otherwise insert. -/
def routerPostDisasters (iso : String → Bool) (b : CreateBody) : CreateOutcome :=
  let errs := disasterSchemaErrors iso b
  if errs.isEmpty then
    .created (createDisasterStoredStatus
      (match b.status with | some (.str s) => some s | _ => none))
  else .reject400 errs

/-- A well-formed Point location value. -/
def pointLocation12 : JSVal :=
  .obj [("type", .str "Point"), ("coordinates", .arr [.num 1, .num 2])]

/-- A create body that is valid except that `status` is omitted. -/
def goodBodyNoStatus : CreateBody :=
  { type := some (.str "wildfire"), location := some pointLocation12,
    date := some (.str "2025-01-01") }

/-! ## Bulk update route (src/validation/disaster.ts `bulkUpdateSchema`,
src/routes/disasters.ts `PUT /bulk`)

`bulkUpdateSchema` items are Joi objects with keys `_id` (string, required),
`type`, `location`, `date`, `description`, `status` (each optional), and
`.min(2)`.  Joi objects reject unknown keys by default, so a key named `id`
fails validation.  After the schema, the route separately requires each
item's `id` to be a truthy positive-integer number before calling the
service.
-/

/-- Keys the bulk-update item schema knows. -/
def bulkUpdateAllowedKeys : List String :=
  ["_id", "type", "location", "date", "description", "status"]

/-- The optional `location` sub-schema of a bulk-update item (same element
rules as the create schema; both keys optional here). -/
def bulkLocationOk : JSVal → Bool
  | .obj fs =>
      (fs.all (fun kv => kv.1 ∈ locationAllowedKeys)) &&
      (match jsLookup "type" fs with
        | none => true
        | some (.str s) => decide (s = "Point")
        | some _ => false) &&
      (match jsLookup "coordinates" fs with
        | none => true
        | some c => coordinatesOk c)
  | _ => false

/-- One bulk-update item against the Joi item schema. -/
def joiBulkItemOk (iso : String → Bool) : JSVal → Bool
  | .obj fs =>
      (fs.all (fun kv => kv.1 ∈ bulkUpdateAllowedKeys)) &&
      (match jsLookup "_id" fs with
        | some (.str _) => true
        | _ => false) &&
      decide (2 ≤ fs.length) &&
      (match jsLookup "type" fs with
        | none => true
        | some (.str s) => !decide (s = "")
        | some _ => false) &&
      (match jsLookup "location" fs with
        | none => true
        | some l => bulkLocationOk l) &&
      (match jsLookup "date" fs with
        | none => true
        | some (.str s) => iso s
        | some _ => false) &&
      (match jsLookup "description" fs with
        | none => true
        | some (.str _) => true
        | some _ => false) &&
      (match jsLookup "status" fs with
        | none => true
        | some (.str s) => decide (s ∈ statusEnum)
        | some _ => false)
  | _ => false

/-- Embeds `bulkUpdateSchema.validate(body)`: an array of ≥ 1 valid items. -/
def joiBulkUpdateOk (iso : String → Bool) (items : List JSVal) : Bool :=
  decide (1 ≤ items.length) && items.all (joiBulkItemOk iso)

/-- The item has a string `_id` (what the schema requires). -/
def hasStringUnderscoreId : JSVal → Bool
  | .obj fs =>
      match jsLookup "_id" fs with
      | some (.str _) => true
      | _ => false
  | _ => false

/-- The route's id filter, negated: `item.id` is truthy, a number, an
integer, and positive (`!item.id || typeof item.id !== 'number' ||
!Number.isInteger(item.id) || item.id <= 0` marks the item invalid). -/
def hasValidNumericIdField : JSVal → Bool
  | .obj fs =>
      match jsLookup "id" fs with
      | some (.num q) => !decide (q = 0) && decide (q.den = 1) && decide (0 < q)
      | _ => false
  | _ => false

/-- Outcome of `PUT /disasters/bulk`: a 400 error response, or the call to
`bulkUpdateDisasters` with the request items (store access happens only in
the second case). -/
inductive BulkUpdateOutcome where
  | reject (status : Nat) (code : String)
  | callService (items : List JSVal)

/-- The `PUT /bulk` route handler: non-array/empty check, Joi schema check,
then the numeric-id check; each failure is a 400 `INVALID_INPUT` response
issued before any store access. -/
def routerPutBulk (iso : String → Bool) (body : JSVal) : BulkUpdateOutcome :=
  match body with
  | .arr items =>
      if items.isEmpty then .reject 400 "INVALID_INPUT"
      else if !joiBulkUpdateOk iso items then .reject 400 "INVALID_INPUT"
      else if items.any (fun it => !hasValidNumericIdField it) then
        .reject 400 "INVALID_INPUT"
      else .callService items
  | _ => .reject 400 "INVALID_INPUT"

/-- A bulk item carrying only the schema's `_id` (plus one updatable
field), without the route's `id`. -/
def bulkItemOnlyUnderscoreId : JSVal :=
  .obj [("_id", .str "1"), ("status", .str "active")]

/-! ## Serialization (src/dto DisasterResponseDTO, GraphQL resolvers,
src/routes/disasters.ts `toProtoDisaster`) -/

/-- A field that at runtime is either a JS `Date` or a string. -/
inductive JSDateOrString where
  | date (ms : Int)
  | str (s : String)
deriving DecidableEq

/-- An entity as handed to the serializers (service output / raw record);
`status` can be unexpectedly absent from a raw record. -/
structure RawDisaster where
  id : Nat
  type : String
  location : JSVal
  date : JSDateOrString
  description : Option String
  status : Option String
  createdAt : JSDateOrString
  updatedAt : JSDateOrString

/-- The REST JSON DTO shape. -/
structure DisasterResponse where
  id : Nat
  type : String
  location : JSVal
  date : JSDateOrString
  description : Option String
  createdAt : JSDateOrString
  updatedAt : JSDateOrString
  status : String

/-- Embeds `new DisasterResponseDTO(disaster)`: fields copied verbatim, with
`this.status = disaster.status || 'active'`. -/
def DisasterResponseDTO (d : RawDisaster) : DisasterResponse :=
  { id := d.id, type := d.type, location := d.location, date := d.date,
    description := d.description, createdAt := d.createdAt,
    updatedAt := d.updatedAt,
    status := match d.status with
      | some s => if s = "" then "active" else s
      | none => "active" }

/-- The GraphQL resolvers return `new DisasterResponseDTO(doc)` for every
disaster-valued field, so the GraphQL-shaped value is the same DTO. -/
def graphqlDisasterValue (d : RawDisaster) : DisasterResponse :=
  DisasterResponseDTO d

/-- The binary wire message (proto `disasters.Disaster`); protobufjs turns
an `undefined` field into the field's default, the empty string. -/
structure ProtoDisaster where
  id : Nat
  type : String
  location : String
  date : String
  description : String
  status : String
  createdAt : String
  updatedAt : String
deriving DecidableEq

/-- Hexadecimal digit characters (for `\u00XX` escapes). -/
def hexDigitChar : Nat → Char
  | 10 => 'a'
  | 11 => 'b'
  | 12 => 'c'
  | 13 => 'd'
  | 14 => 'e'
  | 15 => 'f'
  | n => digitChar n

/-- One character of a JSON string literal. -/
def jsonEscapeChar (c : Char) : String :=
  if c = '"' then "\\\""
  else if c = '\\' then "\\\\"
  else if c = '\n' then "\\n"
  else if c = '\r' then "\\r"
  else if c = '\t' then "\\t"
  else if c = '\x08' then "\\b"
  else if c = '\x0c' then "\\f"
  else if c.toNat < 32 then
    "\\u00" ++ String.mk [hexDigitChar (c.toNat / 16), hexDigitChar (c.toNat % 16)]
  else String.singleton c

/-- A JSON string literal. -/
def jsonQuote (s : String) : String :=
  "\"" ++ String.join (s.data.map jsonEscapeChar) ++ "\""

/-- Embeds `isUndef` for property omission. -/
def isUndefVal : JSVal → Bool
  | .undef => true
  | _ => false

mutual

/-- Embeds `JSON.stringify` of one value; `nr` renders a finite number the way the
host renders a double (host behaviour, abstracted).  Non-finite numbers and
`undefined` inside arrays serialize as `null`; `undefined`-valued object
properties are omitted. -/
def jsonStringify (nr : ℚ → String) : JSVal → String
  | .null => "null"
  | .undef => "null"
  | .bool true => "true"
  | .bool false => "false"
  | .num q => nr q
  | .nan => "null"
  | .inf => "null"
  | .negInf => "null"
  | .str s => jsonQuote s
  | .arr xs => "[" ++ String.intercalate "," (jsonStringifyList nr xs) ++ "]"
  | .obj fs =>
      "\x7b" ++ String.intercalate "," (jsonStringifyFields nr fs) ++ "\x7d"

/-- Serialized array elements. -/
def jsonStringifyList (nr : ℚ → String) : List JSVal → List String
  | [] => []
  | x :: xs => jsonStringify nr x :: jsonStringifyList nr xs

/-- Serialized present (non-`undefined`) properties. -/
def jsonStringifyFields (nr : ℚ → String) :
    List (String × JSVal) → List String
  | [] => []
  | (k, v) :: rest =>
      (if isUndefVal v then [] else [jsonQuote k ++ ":" ++ jsonStringify nr v]) ++
        jsonStringifyFields nr rest

end

/-- Embeds `toProtoDisaster(disaster)` (src/routes/disasters.ts lines 46-67): the
location is re-encoded as a string-encoded GeoJSON document when it passes
the `type === 'Point' && Array.isArray(coordinates)` guard (empty string
otherwise); `Date` values render as full ISO datetimes; `status` is passed
through with no `'active'` fallback. -/
def toProtoDisaster (nr : ℚ → String) (d : RawDisaster) : ProtoDisaster :=
  { id := d.id,
    type := d.type,
    location :=
      match d.location with
      | .obj fs =>
          (match jsLookup "type" fs, jsLookup "coordinates" fs with
            | some (.str t), some (.arr xs) =>
                if t = "Point" then
                  jsonStringify nr
                    (.obj [("type", .str t), ("coordinates", .arr xs)])
                else ""
            | _, _ => "")
      | _ => "",
    date := match d.date with
      | .date ms => toISOStringFull ms
      | .str s => s,
    description := d.description.getD "",
    status := d.status.getD "",
    createdAt := match d.createdAt with
      | .date ms => toISOStringFull ms
      | .str s => s,
    updatedAt := match d.updatedAt with
      | .date ms => toISOStringFull ms
      | .str s => s }

/-- A raw record with `status` unexpectedly absent. -/
def rawNoStatus : RawDisaster :=
  { id := 7, type := "wildfire", location := pointLocation12,
    date := .str "2025-01-01", description := some "big",
    status := none, createdAt := .str "2025-01-02",
    updatedAt := .str "2025-01-03" }

/-- A raw record with a present, nonempty status. -/
def rawContained : RawDisaster :=
  { rawNoStatus with status := some "contained" }

/-- A number renderer for witnesses (exact for the integral coordinates
used there). -/
def numRenderStub : ℚ → String := fun q => toString q.num

/-! ## Concrete fixtures -/

/-- A committed row used in witnesses. -/
def witnessRow : DisasterRow :=
  ⟨1, "wildfire", ⟨1, 2⟩, "2025-01-01", none, "active", 10, 10⟩

/-- A second committed row. -/
def witnessRow2 : DisasterRow :=
  ⟨2, "flood", ⟨3, 4⟩, "2025-01-02", none, "active", 11, 11⟩

/-- A two-row database state. -/
def witnessDb : Db := ⟨[witnessRow, witnessRow2], 50⟩

/-- An update whose `location` is not parseable GeoJSON: the `UPDATE`
statement raises when it reaches the row. -/
def badLocationUpdate : UpdateData := { location := some (.str "not-geojson") }

/-- A bulk batch whose first item succeeds and whose second item raises. -/
def bulkFailingUpdates : List BulkUpdateItem :=
  [⟨1, statusResolvedUpdate⟩, ⟨2, badLocationUpdate⟩]

/-- A stand-in geographic distance function for witnesses (squared
Euclidean; the theorems hold for every distance function). -/
def distStub : GeoPoint → GeoPoint → ℚ :=
  fun p c => (p.lng - c.lng) * (p.lng - c.lng) + (p.lat - c.lat) * (p.lat - c.lat)

/-! ## Theorems -/

theorem specIsPointShape_hasLocationKeys {loc : JSVal}
    (h : specIsPointShape loc = true) : hasLocationKeys loc = true := by
  cases loc with
  | obj fs =>
    simp only [specIsPointShape] at h
    simp only [hasLocationKeys, jsTypeofIsObject, jsIsNull, jsHasKey,
      Bool.and_eq_true, Bool.not_eq_true]
    rcases h1 : jsLookup "type" fs with _ | v1 <;> rw [h1] at h
    · exact absurd h (by simp)
    rcases h2 : jsLookup "coordinates" fs with _ | v2 <;> rw [h2] at h
    · cases v1 <;> simp at h
    · cases v1 <;> cases v2 <;> simp_all
  | _ => simp [specIsPointShape] at h

/-- C2: claimed: every point whose longitude is outside [-180,180] or whose
latitude is outside [-90,90], or with a non-finite coordinate, is rejected
by create/update validation.  In the code, `Joi.array().items(A, B)` lets an
element match either item schema, so the latitude element is accepted by the
longitude rule: coordinates `[10, 95]` (latitude 95 > 90) pass validation,
while longitude out of [-180,180] and non-finite coordinates are indeed
rejected.  This theorem evaluates the embedded schema at the failing input
and at the still-rejected inputs. -/
theorem disasterSchema_accepts_latitude_95 :
    locationOk locationLat95 = true ∧
    specCoordinatesWithinBounds (.arr [.num 10, .num 95]) = false ∧
    locationOk (.obj [("type", .str "Point"),
      ("coordinates", .arr [.num 200, .num 10])]) = false ∧
    locationOk (.obj [("type", .str "Point"),
      ("coordinates", .arr [.nan, .num 10])]) = false ∧
    locationOk (.obj [("type", .str "Point"),
      ("coordinates", .arr [.inf, .num 10])]) = false ∧
    locationOk (.obj [("type", .str "Point"),
      ("coordinates", .arr [.negInf, .num 10])]) = false := by
  refine ⟨?_, ?_, ?_, ?_, ?_, ?_⟩ <;> decide

/-- C9 (counterexample): a LineString-shaped payload does not match the
expected point shape, yet `mapRowToDisaster` returns it unchanged instead of
substituting the `[0,0]` sentinel — the guard only checks for the presence
of the keys `type` and `coordinates`. -/
theorem mapRowToDisasterLocation_keeps_linestring :
    mapRowToDisasterLocation lineStringPayload = lineStringPayload ∧
    specIsPointShape lineStringPayload = false ∧
    lineStringPayload ≠ sentinelPoint :=
  ⟨rfl, by decide, by simp [lineStringPayload, sentinelPoint]⟩

/-- C9 (amended): the row-read location mapping is total and never fails:
every payload is mapped either to itself or to the sentinel point; every
payload that is not a non-null object carrying both the `type` and
`coordinates` keys is mapped to the sentinel; and every payload that does
match the expected point shape (in particular, every genuine point) is
returned unchanged.  The guard checks only object-ness and key presence, so
non-point objects carrying both keys also pass through unchanged. -/
theorem mapRowToDisasterLocation_total :
    ∀ loc : JSVal,
      (mapRowToDisasterLocation loc = loc ∨
        mapRowToDisasterLocation loc = sentinelPoint) ∧
      (hasLocationKeys loc = false →
        mapRowToDisasterLocation loc = sentinelPoint) ∧
      (specIsPointShape loc = true → mapRowToDisasterLocation loc = loc) := by
  intro loc
  refine ⟨?_, ?_, ?_⟩
  · by_cases h : hasLocationKeys loc <;> simp [mapRowToDisasterLocation, h]
  · intro h; simp [mapRowToDisasterLocation, h]
  · intro h; simp [mapRowToDisasterLocation, specIsPointShape_hasLocationKeys h]

theorem sanitizeSkip_nonneg (x : JSNum) : 0 ≤ sanitizeSkip x := by
  cases x with
  | num q => by_cases h : 0 ≤ q <;> simp [sanitizeSkip, h]
  | nan => simp [sanitizeSkip]
  | inf => simp [sanitizeSkip]
  | negInf => simp [sanitizeSkip]

theorem sanitizeLimitPg_pos (x : JSNum) : 0 < sanitizeLimitPg x := by
  cases x with
  | num q => by_cases h : 0 < q <;> simp [sanitizeLimitPg, h]
  | nan => simp [sanitizeLimitPg]
  | inf => simp [sanitizeLimitPg]
  | negInf => simp [sanitizeLimitPg]

/-- C3 (counterexample): a GraphQL `disasters(limit: 500)` request reaches
the pg-pool service with an effective limit of 500 — above the claimed
universal cap of 100.  Neither the resolver nor that service applies the
cap. -/
theorem graphql_limit_500_reaches_service :
    (resolversQueryDisastersEffective (some 1) (some 500)).2 = 500 ∧
    (100 : ℚ) < 500 := by
  constructor
  · simp [resolversQueryDisastersEffective, getAllDisastersEffective,
      sanitizeLimitPg]
  · norm_num

/-- C3 (amended): the pg-pool service clamps a negative or invalid skip to 0
and replaces an invalid or non-positive limit by the default 20; the REST
route caps the effective limit at 100; the Prisma service variant caps at
100 in the service itself; but on the GraphQL path to the pg-pool service
any positive finite requested limit is passed through uncapped. -/
theorem effective_pagination_sanitization :
    ∀ (skipArg limitArg : Option JSNum) (page limit : JSNum) (p : ℚ),
      0 ≤ (getAllDisastersEffective skipArg limitArg).1 ∧
      0 < (getAllDisastersEffective skipArg limitArg).2 ∧
      (∀ q : ℚ, q ≤ 0 → (getAllDisastersEffective skipArg (some (.num q))).2 = 20) ∧
      (getAllDisastersEffective skipArg (some .nan)).2 = 20 ∧
      (routerGetDisastersEffective page limit).2 ≤ 100 ∧
      (getAllDisastersPrismaEffective skipArg limitArg).2 ≤ 100 ∧
      (∀ l : ℚ, 0 < l →
        (resolversQueryDisastersEffective (some p) (some l)).2 = l) := by
  intro skipArg limitArg page limit p
  refine ⟨sanitizeSkip_nonneg _, sanitizeLimitPg_pos _, ?_, ?_, ?_, ?_, ?_⟩
  · intro q hq
    simp [getAllDisastersEffective, sanitizeLimitPg, not_lt.mpr hq]
  · simp [getAllDisastersEffective, sanitizeLimitPg]
  · show sanitizeLimitPg (jsNumMin (jsNumOr limit 20) 100) ≤ 100
    rcases jsNumOr limit 20 with _ | _ | _ | q
    · simp [jsNumMin, sanitizeLimitPg]; norm_num
    · simp [jsNumMin, sanitizeLimitPg]
    · simp [jsNumMin, sanitizeLimitPg]; norm_num
    · by_cases h : 0 < min q 100
      · simp [jsNumMin, sanitizeLimitPg, h, min_le_right q 100]
      · simp [jsNumMin, sanitizeLimitPg, h]; norm_num
  · rcases limitArg with _ | x
    · simp [getAllDisastersPrismaEffective]
    · cases x with
      | num q =>
        by_cases h : 0 < q
        · simp [getAllDisastersPrismaEffective, h, min_le_right q 100]
        · simp [getAllDisastersPrismaEffective, h]; norm_num
      | nan => simp [getAllDisastersPrismaEffective]; norm_num
      | inf => simp [getAllDisastersPrismaEffective]; norm_num
      | negInf => simp [getAllDisastersPrismaEffective]; norm_num
  · intro l hl
    simp [resolversQueryDisastersEffective, getAllDisastersEffective,
      sanitizeLimitPg, hl]

/-- C3 witness: the sanitization theorem applied at concrete inputs — a
requested limit of -7 falls back to 20, and a GraphQL limit of 500 reaches
the service unchanged. -/
theorem effective_pagination_sanitization_witness :
    ((-7 : ℚ) ≤ 0 ∧
      (getAllDisastersEffective (some (.num (-5))) (some (.num (-7)))).2 = 20) ∧
    ((0 : ℚ) < 500 ∧
      (resolversQueryDisastersEffective (some 1) (some 500)).2 = 500) := by
  have h := effective_pagination_sanitization (some (.num (-5))) (some .nan)
    (.num 3) (.num 500) 1
  exact ⟨⟨by norm_num, h.2.2.1 (-7) (by norm_num)⟩,
         ⟨by norm_num, h.2.2.2.2.2.2 500 (by norm_num)⟩⟩

/-- C9 witness: applying the totality theorem at concrete inputs — a bare
string payload falls back to the sentinel, and a genuine point payload is
kept unchanged. -/
theorem mapRowToDisasterLocation_total_witness :
    (hasLocationKeys (.str "oops") = false ∧
      mapRowToDisasterLocation (.str "oops") = sentinelPoint) ∧
    (specIsPointShape sentinelPoint = true ∧
      mapRowToDisasterLocation sentinelPoint = sentinelPoint) :=
  ⟨⟨by decide, (mapRowToDisasterLocation_total (.str "oops")).2.1 (by decide)⟩,
   ⟨by decide, (mapRowToDisasterLocation_total sentinelPoint).2.2 (by decide)⟩⟩

/-- C8: `update` with no effective fields (after discarding `undefined`) is
a no-op: the database state — in particular every `updatedAt` — is
unchanged and the current record is re-read and returned; `update` with
exactly `{status: "resolved"}` rewrites only the matched row, changing only
its `status` and `updatedAt` (set to `NOW()`), returning that row, and
leaving every other row untouched. -/
theorem updateDisaster_noop_and_status_frame :
    (∀ (db : Db) (id : Nat),
      updateDisaster db id emptyUpdate = .ok (db, findRowById db.rows id)) ∧
    (∀ (db : Db) (id : Nat) (r : DisasterRow),
      findRowById db.rows id = some r →
      updateDisaster db id statusResolvedUpdate =
        .ok ({ db with rows := db.rows.map (fun x => if x.id = id then
                { r with status := "resolved", updatedAt := db.now } else x) },
          some { r with status := "resolved", updatedAt := db.now }) ∧
      (∀ x ∈ db.rows, x.id ≠ id →
        x ∈ db.rows.map (fun y => if y.id = id then
          { r with status := "resolved", updatedAt := db.now } else y))) := by
  constructor
  · intro db id
    simp [updateDisaster, emptyUpdate, UpdateData.hasEffectiveFields]
  · intro db id r h
    constructor
    · simp only [updateDisaster, statusResolvedUpdate, h,
        UpdateData.hasEffectiveFields]
      rfl
    · intro x hx hne
      exact List.mem_map.mpr ⟨x, hx, by simp [hne]⟩

/-- C8 witness: the frame theorem applied at a concrete two-row database. -/
theorem updateDisaster_noop_and_status_frame_witness :
    findRowById witnessDb.rows 1 = some witnessRow ∧
    updateDisaster witnessDb 1 statusResolvedUpdate =
      .ok ({ witnessDb with rows := witnessDb.rows.map (fun x =>
          if x.id = 1 then { witnessRow with status := "resolved", updatedAt := witnessDb.now } else x) },
        some { witnessRow with status := "resolved", updatedAt := witnessDb.now }) :=
  ⟨rfl, (updateDisaster_noop_and_status_frame.2 witnessDb 1 witnessRow rfl).1⟩

/-- C1: the claim (a failing item in a relational bulk update rolls the
whole batch back, leaving no record modified) is right about the intent —
the source even comments "Use a transaction for bulk updates" — but the
code opens the transaction on a dedicated pooled client while every
per-item `updateDisaster` runs through `pool.query` on other autocommit
connections.  Evaluating the embedding on a two-item batch whose second
item raises: the call reports a store error, yet the first item's update
remains committed — a partial effect, not a rollback. -/
theorem bulkUpdateDisasters_not_atomic :
    (bulkUpdateDisasters witnessDb bulkFailingUpdates).1 = .error .storeError ∧
    (bulkUpdateDisasters witnessDb bulkFailingUpdates).2 ≠ witnessDb ∧
    findRowById (bulkUpdateDisasters witnessDb bulkFailingUpdates).2.rows 1 =
      some { witnessRow with status := "resolved", updatedAt := 50 } ∧
    findRowById witnessDb.rows 1 = some witnessRow := by
  refine ⟨rfl, by decide, rfl, rfl⟩

/-- C6: for one center point, `findDisastersNear` with a smaller distance
returns a subset of `findDisastersNear` with a larger distance, and every
result list is ordered by non-decreasing geographic distance from the
center — for every distance function interpreting `ST_Distance`. -/
theorem findDisastersNear_monotone_and_sorted
    (dist : GeoPoint → GeoPoint → ℚ) (rows : List DisasterRow) (lng lat : ℚ) :
    (∀ D1 D2 : ℚ, D1 < D2 → ∀ r ∈ findDisastersNear dist rows lng lat D1,
      r ∈ findDisastersNear dist rows lng lat D2) ∧
    (∀ D : ℚ, (findDisastersNear dist rows lng lat D).Pairwise
      (fun a b => dist a.location ⟨lng, lat⟩ ≤ dist b.location ⟨lng, lat⟩)) := by
  constructor
  · intro D1 D2 hlt r hr
    simp only [findDisastersNear, List.mem_insertionSort, List.mem_filter,
      decide_eq_true_eq] at hr ⊢
    refine ⟨hr.1, le_trans hr.2 ?_⟩
    nlinarith [hlt.le]
  · intro D
    have hs := @List.sorted_insertionSort DisasterRow
      (fun a b : DisasterRow =>
        dist a.location ⟨lng, lat⟩ / 1000 ≤ dist b.location ⟨lng, lat⟩ / 1000)
      (fun _ _ => inferInstanceAs (Decidable (_ ≤ _)))
      ⟨fun _ _ => le_total _ _⟩ ⟨fun _ _ _ => le_trans⟩
      (rows.filter (fun r => dist r.location ⟨lng, lat⟩ ≤ D * 1000))
    refine List.Pairwise.imp ?_ hs
    intro a b hab
    exact (div_le_div_iff_of_pos_right (by norm_num : (0:ℚ) < 1000)).mp hab

/-- C6 witness: the monotonicity half applied at a concrete distance
function, row set and pair of radii 1 < 2. -/
theorem findDisastersNear_monotone_and_sorted_witness :
    (1 : ℚ) < 2 ∧
    (∀ r ∈ findDisastersNear distStub [witnessRow] 0 0 1,
      r ∈ findDisastersNear distStub [witnessRow] 0 0 2) :=
  ⟨by norm_num,
   (findDisastersNear_monotone_and_sorted distStub [witnessRow] 0 0).1 1 2
     (by norm_num)⟩

theorem digitChar_mod_isDigit (k : Nat) : (digitChar (k % 10)).isDigit = true := by
  have h : k % 10 < 10 := Nat.mod_lt _ (by norm_num)
  set m := k % 10 with hm
  interval_cases m <;> decide

theorem isDateOnlyString_pads (yn m d : Nat) :
    isDateOnlyString (pad4 yn ++ "-" ++ pad2 m ++ "-" ++ pad2 d) = true := by
  simp only [isDateOnlyString, pad4, pad2, String.data_append]
  simp [digitChar_mod_isDigit]

/-- C7 (counterexample): a stored ISO datetime string is returned by the
read path unchanged — time part included — because the
`/^\d{4}-\d{2}-\d{2}/` branch keeps it "as is"; so the stored date is not
normalized to a `YYYY-MM-DD` string on every read. -/
theorem mapRowToDisasterDate_keeps_iso_datetime :
    mapRowToDisasterDate (fun _ => none) (.str "2025-01-01T12:00:00Z") =
      "2025-01-01T12:00:00Z" ∧
    isDateOnlyString "2025-01-01T12:00:00Z" = false :=
  ⟨by decide, by decide⟩

/-- C7 (amended): the service write path accepts an ISO datetime, an epoch
numeric value or all-digit string (converted to `YYYY-MM-DD` through
`toISOString().slice(0,10)`), or a date-only string (passed through).  On
read, `Date` objects, numeric payloads and all-digit strings are normalized
to `YYYY-MM-DD` (a well-formed date-only string whenever the civil year
falls in 0..9999); but a string that already starts with `YYYY-MM-DD` is
returned as-is, keeping any time part, a string the host cannot parse is
returned unchanged, and a non-string/non-date/non-number payload maps to
the empty string. -/
theorem date_normalization_branches (pd : String → Option Int) :
    (∀ ms : Int, mapRowToDisasterDate pd (.date ms) = toISODate10 ms) ∧
    (∀ ms : Int, mapRowToDisasterDate pd (.num ms) = toISODate10 ms) ∧
    (∀ s, strAllDigits s = true →
      mapRowToDisasterDate pd (.str s) = toISODate10 (strToNatDigits s)) ∧
    (∀ s, strAllDigits s = false → startsWithIsoDate s = true →
      mapRowToDisasterDate pd (.str s) = s) ∧
    (∀ s, strAllDigits s = false → startsWithIsoDate s = false →
      pd s = none → mapRowToDisasterDate pd (.str s) = s) ∧
    (mapRowToDisasterDate pd .other = "") ∧
    (∀ ms : Int, isoDateInBasicRange ms = true →
      isDateOnlyString (toISODate10 ms) = true) ∧
    (∀ ms : Int, createDisasterDateValue (.num ms) = toISODate10 ms) ∧
    (∀ s, strAllDigits s = true →
      createDisasterDateValue (.str s) = toISODate10 (strToNatDigits s)) ∧
    (∀ s, strAllDigits s = false → createDisasterDateValue (.str s) = s) := by
  refine ⟨fun ms => rfl, fun ms => rfl, ?_, ?_, ?_, rfl, ?_, fun ms => rfl, ?_, ?_⟩
  · intro s h
    simp [mapRowToDisasterDate, h]
  · intro s h1 h2
    simp [mapRowToDisasterDate, h1, h2]
  · intro s h1 h2 h3
    simp [mapRowToDisasterDate, h1, h2, h3]
  · intro ms h
    simp only [isoDateInBasicRange, Bool.and_eq_true, decide_eq_true_eq] at h
    simp only [toISODate10, isoYearStr]
    rw [if_pos ⟨h.1.1.1, h.1.1.2⟩]
    exact isDateOnlyString_pads _ _ _
  · intro s h
    simp [createDisasterDateValue, h]
  · intro s h
    simp [createDisasterDateValue, h]

/-- C7 witness: the branch characterization applied at concrete inputs —
an epoch digit-string normalizes to a well-formed `YYYY-MM-DD` string, and
a date-only string is passed through. -/
theorem date_normalization_branches_witness :
    (strAllDigits "1704067200000" = true ∧
      mapRowToDisasterDate (fun _ => none) (.str "1704067200000") =
        toISODate10 (strToNatDigits "1704067200000")) ∧
    (isoDateInBasicRange 1704067200000 = true ∧
      isDateOnlyString (toISODate10 1704067200000) = true) ∧
    (strAllDigits "2025-06-07" = false ∧ startsWithIsoDate "2025-06-07" = true ∧
      mapRowToDisasterDate (fun _ => none) (.str "2025-06-07") = "2025-06-07") :=
  ⟨⟨by decide, (date_normalization_branches _).2.2.1 _ (by decide)⟩,
   ⟨by decide, (date_normalization_branches (fun _ => none)).2.2.2.2.2.2.1 _ (by decide)⟩,
   ⟨by decide, by decide,
     (date_normalization_branches _).2.2.2.1 _ (by decide) (by decide)⟩⟩

/-- C4 (counterexample): a POST body valid in every other field but with
`status` omitted is rejected with 400 and the required-status message — the
create does not succeed with a defaulted `'active'` status, because Joi's
`required()` takes precedence over `default('active')`. -/
theorem create_without_status_rejected :
    routerPostDisasters startsWithIsoDate goodBodyNoStatus =
      .reject400 ["\"status\" is required"] := by decide

/-- C4 (amended): when `status` is omitted from a create input, validation
rejects the request with 400 carrying the `"status" is required` error and
nothing is persisted; the `default('active')` on the schema is inert.  The
`status || 'active'` fallback lives in the service: `createDisaster` stores
`'active'` exactly when invoked (directly, bypassing validation) with an
absent or empty status, and stores any non-empty status verbatim. -/
theorem create_status_default_is_inert (iso : String → Bool) :
    (∀ b : CreateBody, b.status = none →
      ∃ errs, routerPostDisasters iso b = .reject400 errs ∧
        "\"status\" is required" ∈ errs) ∧
    createDisasterStoredStatus none = "active" ∧
    createDisasterStoredStatus (some "") = "active" ∧
    (∀ s, s ≠ "" → createDisasterStoredStatus (some s) = s) := by
  refine ⟨?_, rfl, rfl, ?_⟩
  · intro b hb
    have hmem : "\"status\" is required" ∈ disasterSchemaErrors iso b := by
      simp [disasterSchemaErrors, statusFieldErrors, hb]
    refine ⟨disasterSchemaErrors iso b, ?_, hmem⟩
    have hne : ¬((disasterSchemaErrors iso b).isEmpty = true) := by
      intro hempty
      rw [List.isEmpty_iff] at hempty
      rw [hempty] at hmem
      exact List.not_mem_nil _ hmem
    simp only [routerPostDisasters]
    rw [if_neg hne]
  · intro s hs
    simp [createDisasterStoredStatus, hs]

/-- C4 witness: the theorem applied at the concrete status-less body and at
a concrete non-empty status. -/
theorem create_status_default_is_inert_witness :
    goodBodyNoStatus.status = none ∧
    (∃ errs, routerPostDisasters startsWithIsoDate goodBodyNoStatus =
        .reject400 errs ∧ "\"status\" is required" ∈ errs) ∧
    "contained" ≠ "" ∧
    createDisasterStoredStatus (some "contained") = "contained" :=
  ⟨rfl,
   (create_status_default_is_inert startsWithIsoDate).1 goodBodyNoStatus rfl,
   by decide,
   (create_status_default_is_inert startsWithIsoDate).2.2.2 "contained"
     (by decide)⟩

theorem joiBulkItemOk_underscore {iso : String → Bool} {it : JSVal}
    (h : joiBulkItemOk iso it = true) : hasStringUnderscoreId it = true := by
  cases it
  case obj fs =>
    simp only [joiBulkItemOk, Bool.and_eq_true] at h
    have hb := h.1.1.1.1.1.1.2
    rcases hl : jsLookup "_id" fs with _ | v
    · rw [hl] at hb
      exact absurd hb (by simp)
    · rw [hl] at hb
      cases v <;> simp at hb
      simp [hasStringUnderscoreId, hl]
  all_goals simp [joiBulkItemOk] at h

/-- C10: a REST bulk-update request is accepted (reaches the store) only if
every item carries both the schema's string `_id` and the route's positive
integer `id`: any request containing an item that lacks either one is
answered 400 `INVALID_INPUT` before `bulkUpdateDisasters` is called. -/
theorem routerPutBulk_requires_both_id_fields
    (iso : String → Bool) (items : List JSVal) (it : JSVal)
    (hmem : it ∈ items)
    (hnot : ¬(hasStringUnderscoreId it = true ∧
      hasValidNumericIdField it = true)) :
    routerPutBulk iso (.arr items) = .reject 400 "INVALID_INPUT" := by
  have hnonempty : items.isEmpty = false := by
    cases items with
    | nil => cases hmem
    | cons a l => rfl
  by_cases hjoi : joiBulkUpdateOk iso items = true
  · have hit : joiBulkItemOk iso it = true := by
      have h2 := hjoi
      rw [joiBulkUpdateOk, Bool.and_eq_true] at h2
      exact List.all_eq_true.mp h2.2 it hmem
    have hid := joiBulkItemOk_underscore hit
    have hv : hasValidNumericIdField it = false := by
      cases hvv : hasValidNumericIdField it
      · rfl
      · exact absurd ⟨hid, hvv⟩ hnot
    have hany : (items.any fun x => !hasValidNumericIdField x) = true :=
      List.any_eq_true.mpr ⟨it, hmem, by rw [hv]; rfl⟩
    simp [routerPutBulk, hnonempty, hjoi, hany]
  · have hjoi2 : joiBulkUpdateOk iso items = false := by
      cases hj : joiBulkUpdateOk iso items
      · rfl
      · exact absurd hj hjoi
    simp [routerPutBulk, hnonempty, hjoi2]

/-- C10 witness: a single-item request whose item carries `_id` but not
`id` is rejected with 400 before any store access.  (In fact the two
requirements are jointly unsatisfiable: the schema rejects the unknown key
`id`, so the route accepts no bulk-update request at all.) -/
theorem routerPutBulk_requires_both_id_fields_witness :
    bulkItemOnlyUnderscoreId ∈ [bulkItemOnlyUnderscoreId] ∧
    ¬(hasStringUnderscoreId bulkItemOnlyUnderscoreId = true ∧
      hasValidNumericIdField bulkItemOnlyUnderscoreId = true) ∧
    routerPutBulk startsWithIsoDate (.arr [bulkItemOnlyUnderscoreId]) =
      .reject 400 "INVALID_INPUT" :=
  ⟨List.mem_singleton.mpr rfl, by decide,
   routerPutBulk_requires_both_id_fields startsWithIsoDate _ _
     (List.mem_singleton.mpr rfl) (by decide)⟩

/-- C5 (counterexample): for one raw record with `status` absent, the REST
DTO and the GraphQL value default the status to `'active'`, but the binary
protobuf message carries the protobuf default empty string — the three wire
representations do not apply the same fallback. -/
theorem proto_missing_status_not_defaulted :
    (DisasterResponseDTO rawNoStatus).status = "active" ∧
    (graphqlDisasterValue rawNoStatus).status = "active" ∧
    (toProtoDisaster numRenderStub rawNoStatus).status = "" ∧
    "active" ≠ "" :=
  ⟨rfl, rfl, rfl, by decide⟩

/-- C5 (amended): the REST JSON DTO and the GraphQL-shaped value are the
same `DisasterResponseDTO` object — identical on every field — and both
default a falsy (absent or empty) status to `'active'`; when status is
present and non-empty all three representations carry it identically.  The
binary message applies no fallback (an absent status encodes as the empty
string), and re-encodes `location` as a JSON string and `Date`-valued
fields as full ISO datetime strings, while the DTO copies every field
verbatim. -/
theorem serialization_status_consistency (nr : ℚ → String) :
    (∀ d : RawDisaster, graphqlDisasterValue d = DisasterResponseDTO d) ∧
    (∀ d : RawDisaster, (DisasterResponseDTO d).id = d.id ∧
      (DisasterResponseDTO d).type = d.type ∧
      (DisasterResponseDTO d).location = d.location ∧
      (DisasterResponseDTO d).date = d.date ∧
      (DisasterResponseDTO d).description = d.description) ∧
    (∀ d : RawDisaster,
      (DisasterResponseDTO d).status = createDisasterStoredStatus d.status) ∧
    (∀ d : RawDisaster, (toProtoDisaster nr d).status = d.status.getD "") ∧
    (∀ (d : RawDisaster) (s : String), d.status = some s → s ≠ "" →
      (DisasterResponseDTO d).status = s ∧
      (graphqlDisasterValue d).status = s ∧
      (toProtoDisaster nr d).status = s) ∧
    (∀ (d : RawDisaster) (ms : Int), d.date = .date ms →
      (toProtoDisaster nr d).date = toISOStringFull ms ∧
      (DisasterResponseDTO d).date = .date ms) := by
  refine ⟨fun d => rfl, fun d => ⟨rfl, rfl, rfl, rfl, rfl⟩, ?_, fun d => rfl,
    ?_, ?_⟩
  · intro d
    cases h : d.status <;>
      simp [DisasterResponseDTO, createDisasterStoredStatus, h]
  · intro d s hs hne
    refine ⟨?_, ?_, ?_⟩ <;>
      simp [DisasterResponseDTO, graphqlDisasterValue, toProtoDisaster, hs, hne]
  · intro d ms hd
    constructor <;> simp [toProtoDisaster, DisasterResponseDTO, hd]

/-- C5 witness: the consistency theorem applied at a record carrying status
`"contained"` and at a record carrying a `Date`-valued date. -/
theorem serialization_status_consistency_witness :
    rawContained.status = some "contained" ∧ "contained" ≠ "" ∧
    ((DisasterResponseDTO rawContained).status = "contained" ∧
      (graphqlDisasterValue rawContained).status = "contained" ∧
      (toProtoDisaster numRenderStub rawContained).status = "contained") :=
  ⟨rfl, by decide,
   (serialization_status_consistency numRenderStub).2.2.2.2.1 rawContained
     "contained" rfl (by decide)⟩

end DisastersApi
